import Mathlib

/-!
Verification development for the useDApp repository fragments:
  - packages/core/src/providers/blockNumber/common/subscribeToNewBlock.ts
  - packages/connectors/wallet-connect/src/index.ts
  - packages/core/src/hooks/useSendTransaction.test.ts (tests of the
    useSendTransaction hook, whose implementation is not in the tree)

The TypeScript code is shallowly embedded: provider side effects (listener
registration, dispatches, emitted events, thrown errors) are made explicit
as data returned by the embedded functions.
-/

/-- The action dispatched by the block-number reducer: the shape
`\x7b chainId, blockNumber \x7d` built by the `update` closure in
`subscribeToNewBlock`. Chain ids and block numbers are numbers. -/
structure BlockNumberChanged where
  chainId : Nat
  blockNumber : Nat
deriving DecidableEq, Repr

/-- The `update` closure of `subscribeToNewBlock`:
`(blockNumber) => dispatch(\x7b chainId, blockNumber \x7d)`. -/
def update (chainId blockNumber : Nat) : BlockNumberChanged :=
  { chainId := chainId, blockNumber := blockNumber }

/-- An ethers provider, restricted to what `subscribeToNewBlock` touches:
its ordered list of `'block'` listeners and the outcome of
`getBlockNumber()`. Each registered listener is an `update` closure,
identified by a fresh id (JavaScript closure identity) paired with the
`chainId` it captured. `fetchResult = some n` means `getBlockNumber()`
resolves with `n`; `none` means it rejects. -/
structure Provider where
  listeners : List (Nat × Nat)
  nextId : Nat
  fetchResult : Option Nat
deriving DecidableEq, Repr

/-- `provider.on('block', update)`: appends the listener (a fresh closure
capturing `chainId`) to the `'block'` listener list and returns it. -/
def providerOn (p : Provider) (chainId : Nat) : Provider × (Nat × Nat) :=
  ({ p with listeners := p.listeners ++ [(p.nextId, chainId)], nextId := p.nextId + 1 },
   (p.nextId, chainId))

/-- `provider.off('block', l)`: removes the first occurrence of the given
listener from the `'block'` listener list. -/
def providerOff (p : Provider) (l : Nat × Nat) : Provider :=
  { p with listeners := p.listeners.erase l }

/-- A `'block'` event with block number `n`: every registered listener is an
`update` closure for its captured chain id, so firing the event dispatches
one `BlockNumberChanged` action per listener, in registration order. -/
def fireBlock (p : Provider) (n : Nat) : List BlockNumberChanged :=
  p.listeners.map (fun l => update l.2 n)

/-- The observable outcome of one call to `subscribeToNewBlock`: the
provider state after the call, the listener registered by `on` (if any),
the actions dispatched by the immediate `getBlockNumber()` fetch, and the
listener the returned cleanup function passes to `off` (`none`: the
returned function is `() => undefined`). -/
structure Subscription where
  provider : Option Provider
  handler : Option (Nat × Nat)
  dispatched : List BlockNumberChanged
  cleanup : Option (Nat × Nat)
deriving DecidableEq, Repr

/-- `subscribeToNewBlock(provider, chainId, dispatch, isActive)` from
`subscribeToNewBlock.ts`: when the provider is defined, the chain id is not
undefined and `isActive` holds, it registers the `update` closure with
`provider.on('block', update)`, then calls `provider.getBlockNumber()`,
dispatching the resolved block number through `update` and logging (and
swallowing) a rejection; the returned cleanup calls
`provider.off('block', update)`. Otherwise it does nothing and returns
`() => undefined`. -/
def subscribeToNewBlock (provider? : Option Provider) (chainId? : Option Nat)
    (isActive : Bool) : Subscription :=
  match provider?, chainId?, isActive with
  | some p, some c, true =>
    let r := providerOn p c
    { provider := some r.1
      handler := some r.2
      dispatched :=
        match p.fetchResult with
        | some bn => [update c bn]
        | none => []
      cleanup := some r.2 }
  | q, _, _ =>
    { provider := q, handler := none, dispatched := [], cleanup := none }

/-- Running the cleanup function returned by `subscribeToNewBlock` against a
provider state. -/
def runCleanup (s : Subscription) (p : Provider) : Provider :=
  match s.cleanup with
  | some l => providerOff p l
  | none => p

/-- Listener ids already registered on a provider are older than `nextId`;
this is JavaScript closure freshness: a newly created `update` closure is
not identical to any listener already present. -/
def WFProvider (p : Provider) : Prop :=
  ∀ l ∈ p.listeners, l.1 < p.nextId

/-- Claim C1: `subscribeToNewBlock` registers a `'block'` listener that
dispatches `BlockNumberChanged \x7b chainId, blockNumber \x7d` for each new
block number exactly when the provider is defined, the chain id is not
undefined and `isActive` is true; otherwise nothing is registered, nothing
is ever dispatched, and the returned cleanup is a no-op. -/
theorem subscribeToNewBlock_registration_iff
    (provider? : Option Provider) (chainId? : Option Nat) (isActive : Bool) :
    match provider?, chainId?, isActive with
    | some p, some c, true =>
        (subscribeToNewBlock provider? chainId? isActive).provider
            = some (providerOn p c).1
        ∧ (subscribeToNewBlock provider? chainId? isActive).handler
            = some (p.nextId, c)
        ∧ ∀ n, fireBlock (providerOn p c).1 n = fireBlock p n ++ [update c n]
    | q, _, _ =>
        (subscribeToNewBlock provider? chainId? isActive).provider = q
        ∧ (subscribeToNewBlock provider? chainId? isActive).handler = none
        ∧ (subscribeToNewBlock provider? chainId? isActive).dispatched = []
        ∧ ∀ p, runCleanup (subscribeToNewBlock provider? chainId? isActive) p = p := by
  cases provider? with
  | none =>
    cases chainId? <;> cases isActive <;>
      simp [subscribeToNewBlock, runCleanup]
  | some p =>
    cases chainId? with
    | none =>
      cases isActive <;> simp [subscribeToNewBlock, runCleanup]
    | some c =>
      cases isActive with
      | false => simp [subscribeToNewBlock, runCleanup]
      | true =>
        refine ⟨rfl, rfl, fun n => ?_⟩
        simp [fireBlock, providerOn, update]

/-- Claim C2: for an active subscription, the returned cleanup removes
exactly the registered listener, restoring the `'block'` listener list to
its pre-subscription state, after which block events dispatch nothing from
this subscription. Needs the closure-freshness invariant `WFProvider`. -/
theorem subscribeToNewBlock_cleanup (p : Provider) (c : Nat) (h : WFProvider p) :
    (∀ p1, (subscribeToNewBlock (some p) (some c) true).provider = some p1 →
      (runCleanup (subscribeToNewBlock (some p) (some c) true) p1).listeners
          = p.listeners
      ∧ ∀ n, fireBlock (runCleanup (subscribeToNewBlock (some p) (some c) true) p1) n
          = fireBlock p n) := by
  intro p1 hp1
  have hmem : (p.nextId, c) ∉ p.listeners := by
    intro hin
    exact absurd (h _ hin) (lt_irrefl p.nextId)
  have hp1eq : p1 = (providerOn p c).1 := by
    simpa [subscribeToNewBlock] using hp1.symm
  have hlist : (runCleanup (subscribeToNewBlock (some p) (some c) true) p1).listeners
      = p.listeners := by
    subst hp1eq
    simp [subscribeToNewBlock, runCleanup, providerOff, providerOn,
      List.erase_append_right _ hmem]
  exact ⟨hlist, fun n => by simp [fireBlock, hlist]⟩

/-- Witness for C2 at a concrete provider. -/
theorem subscribeToNewBlock_cleanup_witness :
    (runCleanup (subscribeToNewBlock (some ⟨[(0, 9)], 1, some 5⟩) (some 7) true)
        ⟨[(0, 9), (1, 7)], 2, some 5⟩).listeners = [(0, 9)]
    ∧ fireBlock (runCleanup (subscribeToNewBlock (some ⟨[(0, 9)], 1, some 5⟩) (some 7) true)
        ⟨[(0, 9), (1, 7)], 2, some 5⟩) 11 = fireBlock ⟨[(0, 9)], 1, some 5⟩ 11 := by
  have h := subscribeToNewBlock_cleanup ⟨[(0, 9)], 1, some 5⟩ 7
    (by intro l hl; simp at hl; simp [hl])
    ⟨[(0, 9), (1, 7)], 2, some 5⟩ (by rfl)
  exact ⟨h.1, h.2 11⟩

/-- Claim C10: an active subscription immediately fetches the current block
number once and dispatches it through the same `update` handler; if the
fetch rejects, the error is swallowed, nothing is dispatched for it, and
the `'block'` listener stays registered. -/
theorem subscribeToNewBlock_initial_fetch (p : Provider) (c : Nat) :
    (∀ bn, p.fetchResult = some bn →
      (subscribeToNewBlock (some p) (some c) true).dispatched = [update c bn])
    ∧ (p.fetchResult = none →
      (subscribeToNewBlock (some p) (some c) true).dispatched = []
      ∧ (subscribeToNewBlock (some p) (some c) true).provider = some (providerOn p c).1
      ∧ (p.nextId, c) ∈ (providerOn p c).1.listeners) := by
  constructor
  · intro bn hbn
    simp [subscribeToNewBlock, hbn]
  · intro hnone
    refine ⟨by simp [subscribeToNewBlock, hnone], rfl, ?_⟩
    simp [providerOn]

/-- Witness for C10: a fetch that resolves with 5 dispatches `update c 5`;
a rejecting fetch dispatches nothing yet keeps the listener. -/
theorem subscribeToNewBlock_initial_fetch_witness :
    (subscribeToNewBlock (some ⟨[], 0, some 5⟩) (some 7) true).dispatched = [update 7 5]
    ∧ (subscribeToNewBlock (some ⟨[], 0, none⟩) (some 7) true).dispatched = []
    ∧ (0, 7) ∈ (providerOn ⟨[], 0, none⟩ 7).1.listeners :=
  ⟨(subscribeToNewBlock_initial_fetch ⟨[], 0, some 5⟩ 7).1 5 rfl,
   ((subscribeToNewBlock_initial_fetch ⟨[], 0, none⟩ 7).2 rfl).1,
   ((subscribeToNewBlock_initial_fetch ⟨[], 0, none⟩ 7).2 rfl).2.2⟩

/-- Value of a character as a digit in the JavaScript sense (0-9, then
letters a-z or A-Z as 10-35), `none` for non-alphanumeric characters. -/
def digitVal (c : Char) : Option Nat :=
  if c.isDigit then some (c.toNat - 48)
  else if 'a' ≤ c ∧ c ≤ 'z' then some (c.toNat - 97 + 10)
  else if 'A' ≤ c ∧ c ≤ 'Z' then some (c.toNat - 65 + 10)
  else none

/-- Longest prefix of characters that are digits below the radix, as digit
values (JavaScript `parseInt` stops at the first invalid character). -/
def takeDigits (radix : Nat) : List Char → List Nat
  | [] => []
  | c :: cs =>
    match digitVal c with
    | some v => if v < radix then v :: takeDigits radix cs else []
    | none => []

/-- JavaScript `parseInt(s)` with no radix argument, as the connector calls
it on the `eth_chainId` result: skip leading whitespace, read an optional
sign, switch to base 16 on a `0x`/`0X` prefix (base 10 otherwise), and
parse the longest valid digit prefix; `none` models the `NaN` result when
no digit is found. -/
def parseIntJS (s : String) : Option Int :=
  let cs0 := s.data.dropWhile (fun c => c = ' ' ∨ c = '\t' ∨ c = '\n' ∨ c = '\r')
  let signed : Int × List Char :=
    match cs0 with
    | '-' :: rest => (-1, rest)
    | '+' :: rest => (1, rest)
    | _ => (1, cs0)
  let based : Nat × List Char :=
    match signed.2 with
    | '0' :: 'x' :: rest => (16, rest)
    | '0' :: 'X' :: rest => (16, rest)
    | _ => (10, signed.2)
  let ds := takeDigits based.1 based.2
  if ds.isEmpty then none
  else some (signed.1 * (ds.foldl (fun a d => a * based.1 + d) 0 : Nat))

/-- The data the connector emits on its `update` `ConnectorEvent`:
`\x7b chainId: parseInt(chainId), accounts \x7d`; `chainId = none` models
`NaN`. -/
structure ConnectorUpdateData where
  chainId : Option Int
  accounts : List String
deriving DecidableEq, Repr

/-- Environment of one connector call: whether
`WalletConnectProvider.enable()` resolves, and the results of the
`eth_chainId` and `eth_accounts` requests (`none`: the request rejects). -/
structure ConnectorEnv where
  enableOk : Bool
  chainIdResult : Option String
  accountsResult : Option (List String)
deriving DecidableEq, Repr

/-- The mutable state of a `WalletConnectConnector`: the `provider` field,
holding the id of the `Web3Provider` instance it references (construction
order numbers instances, so distinct ids are distinct instances), and the
id the next construction would use. -/
structure WalletConnectConnector where
  provider : Option Nat
  nextProviderId : Nat
deriving DecidableEq, Repr

/-- `WalletConnectConnector.init`: if `this.provider` is already defined it
returns at once (no construction, no `enable` call, success); otherwise it
constructs a fresh `WalletConnectProvider`, assigns a new `Web3Provider`
wrapping it to `this.provider`, and awaits `enable()`, whose outcome is the
returned flag. The assignment happens before `enable()` is awaited, so the
provider field is set even when `enable` rejects. -/
def init (s : WalletConnectConnector) (env : ConnectorEnv) :
    WalletConnectConnector × Bool :=
  if s.provider.isSome then (s, true)
  else
    ({ provider := some s.nextProviderId, nextProviderId := s.nextProviderId + 1 },
     env.enableOk)

/-- `WalletConnectConnector.activate`: runs `init`, requests `eth_chainId`
and `eth_accounts`, and emits one update `\x7b chainId: parseInt(chainId),
accounts \x7d`; any failure is caught, logged, and rethrown as
`Error('Could not activate connector')`. Result: state after the call, the
emitted update events, and the thrown error message (`none`: resolves). -/
def activate (s : WalletConnectConnector) (env : ConnectorEnv) :
    WalletConnectConnector × List ConnectorUpdateData × Option String :=
  let r := init s env
  if r.2 then
    match env.chainIdResult with
    | none => (r.1, [], some "Could not activate connector")
    | some cid =>
      match env.accountsResult with
      | none => (r.1, [], some "Could not activate connector")
      | some accounts =>
        (r.1, [{ chainId := parseIntJS cid, accounts := accounts }], none)
  else (r.1, [], some "Could not activate connector")

/-- `WalletConnectConnector.connectEagerly`: the same steps as `activate`,
but the catch only logs, so the call always resolves. Result: state after
the call and the emitted update events. -/
def connectEagerly (s : WalletConnectConnector) (env : ConnectorEnv) :
    WalletConnectConnector × List ConnectorUpdateData :=
  let r := init s env
  if r.2 then
    match env.chainIdResult, env.accountsResult with
    | some cid, some accounts =>
      (r.1, [{ chainId := parseIntJS cid, accounts := accounts }])
    | _, _ => (r.1, [])
  else (r.1, [])

/-- `WalletConnectConnector.deactivate`: sets `this.provider` to
`undefined`. -/
def deactivate (s : WalletConnectConnector) : WalletConnectConnector :=
  { s with provider := none }

/-- Claim C7: `activate` emits exactly one update, carrying the chain id
parsed as an integer and the account list, when initialization and both
requests succeed; when any step fails it emits nothing and throws
`Error('Could not activate connector')`. -/
theorem activate_emits_iff (s : WalletConnectConnector) (env : ConnectorEnv) :
    match (s.provider.isSome || env.enableOk), env.chainIdResult,
        env.accountsResult with
    | true, some cid, some accounts =>
        (activate s env).2 = ([{ chainId := parseIntJS cid, accounts := accounts }], none)
    | _, _, _ =>
        (activate s env).2 = ([], some "Could not activate connector") := by
  obtain ⟨p?, n⟩ := s
  obtain ⟨en, cr, ar⟩ := env
  cases p? <;> cases en <;> cases cr <;> cases ar <;>
    simp [activate, init]

/-- Claim C8: `connectEagerly` never throws: every failure is swallowed, the
call resolves with no update emitted, and the connector state is exactly
the state `init` left behind (the steps up to the failure point); only a
fully successful run emits the one update event. -/
theorem connectEagerly_never_throws (s : WalletConnectConnector) (env : ConnectorEnv) :
    (connectEagerly s env).1 = (init s env).1
    ∧ match (s.provider.isSome || env.enableOk), env.chainIdResult,
          env.accountsResult with
      | true, some cid, some accounts =>
          (connectEagerly s env).2 = [{ chainId := parseIntJS cid, accounts := accounts }]
      | _, _, _ => (connectEagerly s env).2 = [] := by
  obtain ⟨p?, n⟩ := s
  obtain ⟨en, cr, ar⟩ := env
  cases p? <;> cases en <;> cases cr <;> cases ar <;>
    simp [connectEagerly, init]

/-- Claim C9: `init` is idempotent on the provider field: with a provider
already present it returns immediately, constructing nothing and calling
nothing, so `activate` and `connectEagerly` keep using that same instance;
`deactivate` clears the field, and the next `init` constructs a fresh
instance. -/
theorem init_idempotent (s : WalletConnectConnector) (env : ConnectorEnv) :
    (∀ i, s.provider = some i →
      init s env = (s, true)
      ∧ (activate s env).1.provider = some i
      ∧ (connectEagerly s env).1.provider = some i)
    ∧ (deactivate s).provider = none
    ∧ (s.provider = none →
      (init s env).1.provider = some s.nextProviderId
      ∧ (init s env).1.nextProviderId = s.nextProviderId + 1) := by
  refine ⟨fun i hi => ?_, rfl, fun hnone => ?_⟩
  · have hinit : init s env = (s, true) := by simp [init, hi]
    refine ⟨hinit, ?_, ?_⟩
    · obtain ⟨p?, n⟩ := s
      obtain ⟨en, cr, ar⟩ := env
      cases cr <;> cases ar <;> simp_all [activate, init]
    · obtain ⟨p?, n⟩ := s
      obtain ⟨en, cr, ar⟩ := env
      cases cr <;> cases ar <;> simp_all [connectEagerly, init]
  · constructor <;> simp [init, hnone]

/-- Witness for C9: a connector whose provider is instance 3 is untouched by
`init`, and after `deactivate` a fresh instance 4 is constructed. -/
theorem init_idempotent_witness :
    init ⟨some 3, 4⟩ ⟨false, none, none⟩ = (⟨some 3, 4⟩, true)
    ∧ (activate ⟨some 3, 4⟩ ⟨false, none, none⟩).1.provider = some 3
    ∧ (init (deactivate ⟨some 3, 4⟩) ⟨true, none, none⟩).1.provider = some 4 :=
  ⟨((init_idempotent ⟨some 3, 4⟩ ⟨false, none, none⟩).1 3 rfl).1,
   ((init_idempotent ⟨some 3, 4⟩ ⟨false, none, none⟩).1 3 rfl).2.1,
   ((init_idempotent (deactivate ⟨some 3, 4⟩) ⟨true, none, none⟩).2.2 rfl).1⟩

/-- Hexadecimal digit test, as ethers address validation uses it. -/
def isHexDigit (c : Char) : Bool :=
  c.isDigit || ('a' ≤ c && c ≤ 'f') || ('A' ≤ c && c ≤ 'F')

/-- Modelled from the spec: the useSendTransaction hook's implementation is
not in the tree (only its test file is); the spec says transactions are
submitted through ethers.js, which rejects a malformed recipient with an
`invalid address` error. An address is `0x` followed by exactly 40 hex
digits (the keccak checksum test on mixed-case addresses is out of scope of
this model). -/
def isValidAddress (s : String) : Bool :=
  match s.data with
  | '0' :: 'x' :: rest => rest.length = 40 && rest.all isHexDigit
  | _ => false

/-- A transaction request as passed to `sendTransaction` in the tests:
recipient, transferred value, and gas price (in wei). -/
structure TransactionRequest where
  «to» : String
  value : Nat
  gasPrice : Nat
deriving DecidableEq, Repr

/-- The receipt the hook's state exposes after a mined transaction. -/
structure TransactionReceipt where
  «to» : String
  «from» : String
  status : Nat
  gasUsed : Nat
deriving DecidableEq, Repr

/-- The transaction as built by the hook (after gas estimation and the
gas-limit buffer). -/
structure BuiltTransaction where
  «to» : String
  value : Nat
  gasPrice : Nat
  gasLimit : Nat
deriving DecidableEq, Repr

/-- The hook's `state` after `sendTransaction` settles. -/
structure TransactionState where
  status : String
  errorMessage : Option String
  transaction : Option BuiltTransaction
  receipt : Option TransactionReceipt
deriving DecidableEq, Repr

/-- Options passed to `useSendTransaction` itself. -/
structure TransactionOptions where
  bufferGasLimitPercentage : Option Nat
deriving DecidableEq, Repr

/-- The global dapp `Config`, restricted to the field these claims use. -/
structure Config where
  bufferGasLimitPercentage : Option Nat
deriving DecidableEq, Repr

/-- Modelled from the spec: hook options take precedence over the global
config, so the effective gas-limit buffer percentage is the one from the
options when given, else the one from the config, else 0. -/
def effectiveBuffer (opts : TransactionOptions) (cfg : Config) : Nat :=
  match opts.bufferGasLimitPercentage with
  | some b => b
  | none => cfg.bufferGasLimitPercentage.getD 0

/-- Gas consumed by a plain ether transfer (`BASE_TX_COST` in the tests). -/
def baseTxCost : Nat := 21000

/-- Modelled from the spec: the useSendTransaction hook's implementation is
not in the tree (only its test file is). Per the spec it orchestrates a
transaction's lifecycle — build, sign, send, wait for receipt — through
ethers.js over the network's ledger (`bal`, balances in wei). Build:
validate the recipient (an invalid one raises `invalid address` and nothing
is sent, status `Exception`); estimate gas (`baseTxCost` for a plain
transfer) and buffer the gas limit by `effectiveBuffer` percent. Sign: the
signer's address becomes the sender. Send: the network accepts the
transaction when the sender can cover value plus fees; acceptance moves the
value to the recipient, deducts value plus fees from the sender, and yields
a receipt with `status` 1 and positive `gasUsed`, leaving the hook's state
`Success`. -/
def sendTransaction (signer : String) (opts : TransactionOptions) (cfg : Config)
    (bal : String → Int) (req : TransactionRequest) :
    TransactionState × (String → Int) :=
  if isValidAddress req.«to» then
    let tx : BuiltTransaction :=
      { «to» := req.«to», value := req.value, gasPrice := req.gasPrice,
        gasLimit := baseTxCost + baseTxCost * effectiveBuffer opts cfg / 100 }
    let cost : Int := req.value + req.gasPrice * baseTxCost
    if cost ≤ bal signer then
      let debited : String → Int := fun a => if a = signer then bal a - cost else bal a
      ({ status := "Success", errorMessage := none, transaction := some tx,
         receipt := some { «to» := req.«to», «from» := signer, status := 1,
                           gasUsed := baseTxCost } },
       fun a => if a = req.«to» then debited a + req.value else debited a)
    else
      ({ status := "Fail", errorMessage := none, transaction := some tx,
         receipt := none }, bal)
  else
    ({ status := "Exception", errorMessage := some "invalid address",
       transaction := none, receipt := none }, bal)

/-- Claim C3: a transaction the network accepts completes the lifecycle:
status `Success` and a defined receipt whose `to` is the request's
recipient, whose `from` is the signer's address, whose `status` is 1, and
whose `gasUsed` is positive. -/
theorem sendTransaction_success_receipt (signer : String)
    (opts : TransactionOptions) (cfg : Config) (bal : String → Int)
    (req : TransactionRequest) (hvalid : isValidAddress req.«to» = true)
    (haccept : (req.value : Int) + req.gasPrice * baseTxCost ≤ bal signer) :
    (sendTransaction signer opts cfg bal req).1.status = "Success"
    ∧ ∃ r, (sendTransaction signer opts cfg bal req).1.receipt = some r
        ∧ r.«to» = req.«to» ∧ r.«from» = signer ∧ r.status = 1 ∧ 0 < r.gasUsed := by
  refine ⟨?_, { «to» := req.«to», «from» := signer, status := 1, gasUsed := baseTxCost },
    ?_, rfl, rfl, rfl, by simp [baseTxCost]⟩ <;>
  simp [sendTransaction, hvalid, haccept]

/-- Witness for C3 at a concrete accepted transfer. -/
theorem sendTransaction_success_receipt_witness :
    (sendTransaction "0xaaaaaaaaaaaaaaaaaaaaaaaaaaaaaaaaaaaaaaaa" ⟨none⟩ ⟨none⟩
        (fun a => if a = "0xaaaaaaaaaaaaaaaaaaaaaaaaaaaaaaaaaaaaaaaa" then 100 else 0)
        { «to» := "0xbbbbbbbbbbbbbbbbbbbbbbbbbbbbbbbbbbbbbbbb", value := 10,
          gasPrice := 0 }).1.status = "Success" :=
  (sendTransaction_success_receipt "0xaaaaaaaaaaaaaaaaaaaaaaaaaaaaaaaaaaaaaaaa"
    ⟨none⟩ ⟨none⟩
    (fun a => if a = "0xaaaaaaaaaaaaaaaaaaaaaaaaaaaaaaaaaaaaaaaa" then 100 else 0)
    { «to» := "0xbbbbbbbbbbbbbbbbbbbbbbbbbbbbbbbbbbbbbbbb", value := 10, gasPrice := 0 }
    (by decide) (by decide)).1

/-- Claim C4: a successful value transfer of `v` at gas price 0 between
distinct accounts credits the receiver with exactly `v`, debits the spender
by exactly `v`, and changes no other balance. -/
theorem sendTransaction_balances (signer : String)
    (opts : TransactionOptions) (cfg : Config) (bal : String → Int)
    (req : TransactionRequest) (hvalid : isValidAddress req.«to» = true)
    (haccept : (req.value : Int) + req.gasPrice * baseTxCost ≤ bal signer)
    (hgas : req.gasPrice = 0) (hne : signer ≠ req.«to») :
    (sendTransaction signer opts cfg bal req).2 req.«to» = bal req.«to» + req.value
    ∧ (sendTransaction signer opts cfg bal req).2 signer = bal signer - req.value
    ∧ ∀ a, a ≠ req.«to» → a ≠ signer →
        (sendTransaction signer opts cfg bal req).2 a = bal a := by
  have hacc : (req.value : Int) ≤ bal signer := by
    have h2 := haccept
    rw [hgas] at h2
    simpa using h2
  refine ⟨?_, ?_, fun a ha1 ha2 => ?_⟩
  · simp [sendTransaction, hvalid, hgas, hacc, Ne.symm hne]
  · simp [sendTransaction, hvalid, hgas, hacc, hne]
  · simp [sendTransaction, hvalid, hgas, hacc, ha1, ha2]

/-- Witness for C4 at a concrete zero-gas-price transfer of 10 wei. -/
theorem sendTransaction_balances_witness :
    (sendTransaction "0xaaaaaaaaaaaaaaaaaaaaaaaaaaaaaaaaaaaaaaaa" ⟨none⟩ ⟨none⟩
        (fun a => if a = "0xaaaaaaaaaaaaaaaaaaaaaaaaaaaaaaaaaaaaaaaa" then 100 else 7)
        { «to» := "0xbbbbbbbbbbbbbbbbbbbbbbbbbbbbbbbbbbbbbbbb", value := 10,
          gasPrice := 0 }).2 "0xbbbbbbbbbbbbbbbbbbbbbbbbbbbbbbbbbbbbbbbb" = 17
    ∧ (sendTransaction "0xaaaaaaaaaaaaaaaaaaaaaaaaaaaaaaaaaaaaaaaa" ⟨none⟩ ⟨none⟩
        (fun a => if a = "0xaaaaaaaaaaaaaaaaaaaaaaaaaaaaaaaaaaaaaaaa" then 100 else 7)
        { «to» := "0xbbbbbbbbbbbbbbbbbbbbbbbbbbbbbbbbbbbbbbbb", value := 10,
          gasPrice := 0 }).2 "0xaaaaaaaaaaaaaaaaaaaaaaaaaaaaaaaaaaaaaaaa" = 90
    ∧ (sendTransaction "0xaaaaaaaaaaaaaaaaaaaaaaaaaaaaaaaaaaaaaaaa" ⟨none⟩ ⟨none⟩
        (fun a => if a = "0xaaaaaaaaaaaaaaaaaaaaaaaaaaaaaaaaaaaaaaaa" then 100 else 7)
        { «to» := "0xbbbbbbbbbbbbbbbbbbbbbbbbbbbbbbbbbbbbbbbb", value := 10,
          gasPrice := 0 }).2 "0xcccccccccccccccccccccccccccccccccccccccc" = 7 := by
  have h := sendTransaction_balances "0xaaaaaaaaaaaaaaaaaaaaaaaaaaaaaaaaaaaaaaaa"
    ⟨none⟩ ⟨none⟩
    (fun a => if a = "0xaaaaaaaaaaaaaaaaaaaaaaaaaaaaaaaaaaaaaaaa" then 100 else 7)
    { «to» := "0xbbbbbbbbbbbbbbbbbbbbbbbbbbbbbbbbbbbbbbbb", value := 10, gasPrice := 0 }
    (by decide) (by decide) rfl (by decide)
  refine ⟨?_, ?_, ?_⟩
  · rw [h.1]; decide
  · rw [h.2.1]; decide
  · rw [h.2.2 "0xcccccccccccccccccccccccccccccccccccccccc" (by decide) (by decide)]
    decide

/-- Claim C5: a request whose recipient is not a valid address is not sent:
the state is `Exception` with error message `invalid address`, no
transaction or receipt exists, and no balance changes. -/
theorem sendTransaction_invalid_address (signer : String)
    (opts : TransactionOptions) (cfg : Config) (bal : String → Int)
    (req : TransactionRequest) (hbad : isValidAddress req.«to» = false) :
    (sendTransaction signer opts cfg bal req).1
        = { status := "Exception", errorMessage := some "invalid address",
            transaction := none, receipt := none }
    ∧ (sendTransaction signer opts cfg bal req).2 = bal := by
  constructor <;> simp [sendTransaction, hbad]

/-- Witness for C5 at the test's recipient `0x1`. -/
theorem sendTransaction_invalid_address_witness :
    (sendTransaction "0xaaaaaaaaaaaaaaaaaaaaaaaaaaaaaaaaaaaaaaaa" ⟨some 100⟩ ⟨none⟩
        (fun _ => 100) { «to» := "0x1", value := 10, gasPrice := 0 }).1.status
        = "Exception"
    ∧ (sendTransaction "0xaaaaaaaaaaaaaaaaaaaaaaaaaaaaaaaaaaaaaaaa" ⟨some 100⟩ ⟨none⟩
        (fun _ => 100) { «to» := "0x1", value := 10, gasPrice := 0 }).1.errorMessage
        = some "invalid address"
    ∧ (sendTransaction "0xaaaaaaaaaaaaaaaaaaaaaaaaaaaaaaaaaaaaaaaa" ⟨some 100⟩ ⟨none⟩
        (fun _ => 100) { «to» := "0x1", value := 10, gasPrice := 0 }).2 = fun _ => 100 := by
  have h := sendTransaction_invalid_address "0xaaaaaaaaaaaaaaaaaaaaaaaaaaaaaaaaaaaaaaaa"
    ⟨some 100⟩ ⟨none⟩ (fun _ => 100)
    { «to» := "0x1", value := 10, gasPrice := 0 } (by decide)
  exact ⟨by rw [h.1], by rw [h.1], h.2⟩

/-- Claim C6: with `bufferGasLimitPercentage` 100 — supplied either in the
hook's options or in the global config — the gas limit of the built plain
transfer is the 21000 estimate increased by 100 percent, exactly
`2 * baseTxCost`, identically for both configuration places. -/
theorem sendTransaction_gas_buffer (signer : String) (cfgBuf : Option Nat)
    (bal : String → Int) (req : TransactionRequest)
    (hvalid : isValidAddress req.«to» = true) :
    (sendTransaction signer ⟨some 100⟩ ⟨cfgBuf⟩ bal req).1.transaction
        = some { «to» := req.«to», value := req.value, gasPrice := req.gasPrice,
                 gasLimit := 2 * baseTxCost }
    ∧ (sendTransaction signer ⟨none⟩ ⟨some 100⟩ bal req).1.transaction
        = some { «to» := req.«to», value := req.value, gasPrice := req.gasPrice,
                 gasLimit := 2 * baseTxCost } := by
  have key : ∀ (opts : TransactionOptions) (cfg : Config),
      effectiveBuffer opts cfg = 100 →
      (sendTransaction signer opts cfg bal req).1.transaction
        = some { «to» := req.«to», value := req.value, gasPrice := req.gasPrice,
                 gasLimit := 2 * baseTxCost } := by
    intro opts cfg hbuf
    unfold sendTransaction
    simp only [hvalid, if_true, hbuf]
    split <;> norm_num [baseTxCost]
  exact ⟨key ⟨some 100⟩ ⟨cfgBuf⟩ rfl, key ⟨none⟩ ⟨some 100⟩ rfl⟩

/-- Witness for C6: both configuration places yield gas limit 42000. -/
theorem sendTransaction_gas_buffer_witness :
    (sendTransaction "0xaaaaaaaaaaaaaaaaaaaaaaaaaaaaaaaaaaaaaaaa" ⟨some 100⟩ ⟨none⟩
        (fun _ => 100)
        { «to» := "0xbbbbbbbbbbbbbbbbbbbbbbbbbbbbbbbbbbbbbbbb", value := 10,
          gasPrice := 0 }).1.transaction
        = some { «to» := "0xbbbbbbbbbbbbbbbbbbbbbbbbbbbbbbbbbbbbbbbb", value := 10,
                 gasPrice := 0, gasLimit := 42000 }
    ∧ (sendTransaction "0xaaaaaaaaaaaaaaaaaaaaaaaaaaaaaaaaaaaaaaaa" ⟨none⟩ ⟨some 100⟩
        (fun _ => 100)
        { «to» := "0xbbbbbbbbbbbbbbbbbbbbbbbbbbbbbbbbbbbbbbbb", value := 10,
          gasPrice := 0 }).1.transaction
        = some { «to» := "0xbbbbbbbbbbbbbbbbbbbbbbbbbbbbbbbbbbbbbbbb", value := 10,
                 gasPrice := 0, gasLimit := 42000 } :=
  sendTransaction_gas_buffer "0xaaaaaaaaaaaaaaaaaaaaaaaaaaaaaaaaaaaaaaaa" none
    (fun _ => 100)
    { «to» := "0xbbbbbbbbbbbbbbbbbbbbbbbbbbbbbbbbbbbbbbbb", value := 10, gasPrice := 0 }
    (by decide)
